import Mathlib

/-!
Verification of the parkit-backend Discovery Engine against its
natural-language specification.  The definitions below are a shallow
embedding of `src/worker/ticketScraper.ts`, `src/tickets/types.ts` and
`src/services/ocrService.ts`: pure functions are translated directly,
stateful code is modelled by explicit state passing, timestamps are
integer milliseconds, and JavaScript numbers carry their IEEE-754
double semantics where it matters: integer rounding at `2^53` in the
sequencer, and `NaN`/`Infinity`/overflow in the OCR parse (in-range
finite values keep their exact decimal value).
-/

set_option maxRecDepth 4000
set_option exponentiation.threshold 1100

namespace ParkIt

/-! ### Data model: Ticket and ScraperState (Prisma rows) -/

/-- One discovered ticket record, `Ticket` from the Prisma schema.
`timestamp` is milliseconds since epoch (a JS `Date` value), coordinates
are modelled as exact rationals. -/
structure Ticket where
  ticketId : String
  licensePlateNumber : Option String
  licensePlateState : Option String
  timestamp : Int
  lat : Option ℚ
  lng : Option ℚ
  streetLocation : Option String
deriving DecidableEq, Repr

/-- The durable scraper cursor row, `ScraperState` from the Prisma schema
(the singleton with `id = 1`; the fixed id is omitted). -/
structure ScraperState where
  lastCheckedId : String
  status : String
deriving DecidableEq, Repr

/-- `DEFAULT_START_TICKET_ID` from `ticketScraper.ts`. -/
def DEFAULT_START_TICKET_ID : String := "100000057470"

/-! ### Identifier sequencer: `incrementTicketId` -/

/-- Character class `[a-zA-Z]` of the JS regex. -/
def isAsciiLetter (c : Char) : Bool :=
  (('a' ≤ c) && (c ≤ 'z')) || (('A' ≤ c) && (c ≤ 'Z'))

/-- `parseInt(numeric, 10)` on an all-digit string, modelled exactly. -/
def digitsVal (l : List Char) : Nat :=
  l.foldl (fun a c => 10 * a + (c.toNat - 48)) 0

/-- JS `String.prototype.padStart(width, c)`. -/
def padStart (l : List Char) (width : Nat) (c : Char) : List Char :=
  List.replicate (width - l.length) c ++ l

/-- The test of the anchored regex `^([a-zA-Z]*)(\d+)$`: a (possibly
empty) run of ASCII letters followed by a nonempty run of ASCII digits.
Since the two character classes are disjoint, taking the maximal letter
run is exactly the regex semantics. -/
def matchesIdShape (l : List Char) : Bool :=
  let rest := l.dropWhile isAsciiLetter
  !rest.isEmpty && rest.all Char.isDigit

/-- Number of floor-halvings needed to bring the second argument below
`2^53`; the first argument is structural fuel (always called with the
number itself, which bounds the halvings needed). -/
def shiftCount : Nat → Nat → Nat
  | 0, _ => 0
  | fuel + 1, m => if m < 2 ^ 53 then 0 else shiftCount fuel (m / 2) + 1

/-- The value of the IEEE-754 double nearest to an integer
(round-to-nearest, ties to even): integers up to `2^53` are exact;
above, the integer is rounded to a multiple of the unit in the last
place of its binade.  This is the value `parseInt` produces on a digit
string, and the value of a double addition whose exact sum is an
integer. -/
def jsIntRound (n : Nat) : Nat :=
  let e := shiftCount n n
  if e = 0 then n
  else
    let q := n / 2 ^ e
    let r := n % 2 ^ e
    let half := 2 ^ (e - 1)
    if half < r ∨ (r = half ∧ q % 2 = 1) then (q + 1) * 2 ^ e else q * 2 ^ e

/-- `incrementTicketId` from `ticketScraper.ts`, on the character list of
the input string.  On a regex match, group 1 is the maximal letter run
and group 2 the digit remainder; otherwise the literal `'1'` is appended
(the warned fallback path).  `parseInt(numeric, 10)` yields the double
nearest the digit value (`jsIntRound`), the `+ 1` is a double addition
(exact integer sum re-rounded), and `toString()` is modelled as the
exact decimal digits of the resulting value — which agrees with JS
`toString` for every value up to `2^53`, the only values reached by the
theorems below; the exponential rendering JS uses from `1e21` on is not
modelled. -/
def incrementTicketIdL (l : List Char) : List Char :=
  if matchesIdShape l then
    let pre := l.takeWhile isAsciiLetter
    let rest := l.dropWhile isAsciiLetter
    let nextNum := jsIntRound (jsIntRound (digitsVal rest) + 1)
    pre ++ padStart (Nat.toDigits 10 nextNum) rest.length '0'
  else
    l ++ ['1']

/-- `incrementTicketId` from `ticketScraper.ts`. -/
def incrementTicketId (s : String) : String :=
  String.mk (incrementTicketIdL s.data)

/-- ASCII digits are not ASCII letters (the two regex classes are
disjoint). -/
theorem digit_not_asciiLetter {c : Char} (h : c.isDigit = true) :
    isAsciiLetter c = false := by
  simp [Char.isDigit, Char.le_def, UInt32.le_def, BitVec.le_def] at h
  simp [isAsciiLetter, Char.le_def, UInt32.le_def, BitVec.le_def]
  omega

/-- Splitting off the maximal letter run of `p ++ num` recovers exactly
`p` and `num` when `p` is all letters and `num` is a nonempty digit
string. -/
theorem takeWhile_letters_append {p num : List Char}
    (hp : p.all isAsciiLetter = true) (hne : num ≠ [])
    (hnum : num.all Char.isDigit = true) :
    (p ++ num).takeWhile isAsciiLetter = p ∧
      (p ++ num).dropWhile isAsciiLetter = num := by
  induction p with
  | nil =>
    cases num with
    | nil => exact absurd rfl hne
    | cons c t =>
      have hc : Char.isDigit c = true := by
        simp [List.all_cons] at hnum
        exact hnum.1
      simp [List.takeWhile_cons, List.dropWhile_cons, digit_not_asciiLetter hc]
  | cons a p ih =>
    simp only [List.all_cons, Bool.and_eq_true] at hp
    have hrec := ih hp.2
    simp [List.takeWhile_cons, List.dropWhile_cons, hp.1, hrec.1, hrec.2]

/-- `matchesIdShape` decides exactly the language of the anchored regex
`^([a-zA-Z]*)(\d+)$`. -/
theorem matchesIdShape_iff {l : List Char} :
    matchesIdShape l = true ↔
      ∃ p num : List Char, l = p ++ num ∧ p.all isAsciiLetter = true ∧
        num ≠ [] ∧ num.all Char.isDigit = true := by
  constructor
  · intro h
    simp only [matchesIdShape, Bool.and_eq_true, Bool.not_eq_true',
      List.isEmpty_eq_false, ne_eq] at h
    refine ⟨l.takeWhile isAsciiLetter, l.dropWhile isAsciiLetter,
      (List.takeWhile_append_dropWhile isAsciiLetter l).symm, ?_, h.1, h.2⟩
    exact List.all_takeWhile
  · rintro ⟨p, num, rfl, hp, hne, hnum⟩
    have hd := (takeWhile_letters_append hp hne hnum).2
    simp [matchesIdShape, hd, hne, hnum]

/-- Integers below `2^53` are exactly representable as doubles. -/
theorem jsIntRound_of_lt {n : Nat} (h : n < 2 ^ 53) : jsIntRound n = n := by
  have he : shiftCount n n = 0 := by
    cases n with
    | zero => rfl
    | succ k =>
      rw [shiftCount, if_pos h]
  simp [jsIntRound, he]

/-- The bound `2^53` itself is exactly representable. -/
theorem jsIntRound_pow53 : jsIntRound (2 ^ 53) = 2 ^ 53 := by decide

/-- Integers up to `2^53` are exactly representable as doubles. -/
theorem jsIntRound_of_le {n : Nat} (h : n ≤ 2 ^ 53) : jsIntRound n = n := by
  rcases Nat.lt_or_ge n (2 ^ 53) with hlt | hge
  · exact jsIntRound_of_lt hlt
  · rw [Nat.le_antisymm h hge, jsIntRound_pow53]

/-- C5 counterexample: the sequencer does not increment every digit
suffix by one.  For the suffix `9007199254740993` (2^53 + 1),
`parseInt` rounds to the nearest double `9007199254740992`, the `+ 1`
rounds back to that same double, and the output carries
`9007199254740992` — not the suffix incremented by one
(`9007199254740994`). -/
theorem incrementTicketId_rounds_at_double_limit :
    incrementTicketId "9007199254740993" = "9007199254740992" ∧
    digitsVal "9007199254740993".data + 1 = 9007199254740994 ∧
    ("9007199254740992" : String) ≠ "9007199254740994" := by
  decide

/-- C5 (amended): on inputs of the form letters-then-digits whose digit
suffix has value `v` with `v + 1 ≤ 2^53` (the exactly-representable
double range; every portal id is 12 digits), the sequencer keeps the
same alphabetic part and re-joins it with the suffix incremented by
one, zero-padded to at least the original width — beyond `2^53` the
double rounding of `parseInt`/`+ 1` may yield a different value; on any
input not matching letters-then-digits (including the empty string) it
appends the literal `"1"`; witnessed by the concrete examples
`cab099 → cab100`, `099 → 100`, `007 → 008`, `"" → "1"`. -/
theorem incrementTicketId_spec :
    (∀ p num : List Char, p.all isAsciiLetter = true → num ≠ [] →
        num.all Char.isDigit = true → digitsVal num + 1 ≤ 2 ^ 53 →
        incrementTicketId (String.mk (p ++ num)) =
          String.mk
            (p ++ padStart (Nat.toDigits 10 (digitsVal num + 1)) num.length '0') ∧
        num.length ≤
          (padStart (Nat.toDigits 10 (digitsVal num + 1)) num.length '0').length) ∧
    (∀ s : String, matchesIdShape s.data = false → incrementTicketId s = s ++ "1") ∧
    (∀ l : List Char, matchesIdShape l = true ↔
      ∃ p num : List Char, l = p ++ num ∧ p.all isAsciiLetter = true ∧
        num ≠ [] ∧ num.all Char.isDigit = true) ∧
    incrementTicketId "cab099" = "cab100" ∧
    incrementTicketId "099" = "100" ∧
    incrementTicketId "007" = "008" ∧
    incrementTicketId "" = "1" := by
  refine ⟨?_, ?_, fun _ => matchesIdShape_iff, by decide, by decide, by decide, by decide⟩
  · intro p num hp hne hnum hle
    have hsplit := takeWhile_letters_append hp hne hnum
    have hshape : matchesIdShape (p ++ num) = true :=
      matchesIdShape_iff.mpr ⟨p, num, rfl, hp, hne, hnum⟩
    have hr1 : jsIntRound (digitsVal num) = digitsVal num :=
      jsIntRound_of_lt (by omega)
    have hr2 : jsIntRound (digitsVal num + 1) = digitsVal num + 1 :=
      jsIntRound_of_le hle
    constructor
    · simp only [incrementTicketId, incrementTicketIdL, hshape, if_true,
        hsplit.1, hsplit.2, hr1, hr2]
    · simp only [padStart, List.length_append, List.length_replicate]
      omega
  · intro s h
    have : incrementTicketIdL s.data = s.data ++ ['1'] := by
      simp [incrementTicketIdL, h]
    cases s with
    | mk data =>
      simp only [incrementTicketId, this]
      rfl

/-- Witness for `incrementTicketId_spec`: the regular branch instantiated
at `"cab" ++ "099"` and the fallback branch instantiated at `""`. -/
theorem incrementTicketId_spec_witness :
    incrementTicketId (String.mk ("cab".data ++ "099".data)) =
      String.mk
        ("cab".data ++
          padStart (Nat.toDigits 10 (digitsVal "099".data + 1)) "099".data.length '0') ∧
    incrementTicketId "" = "" ++ "1" :=
  ⟨(incrementTicketId_spec.1 "cab".data "099".data (by decide) (by decide)
      (by decide) (by decide)).1,
    incrementTicketId_spec.2.1 "" (by decide)⟩

/-! ### Durable cursor bootstrap: `getOrCreateScraperState` -/

/-- `getOrCreateScraperState` from `ticketScraper.ts`: return the
existing singleton row if present, otherwise create it with the
configured default start id and status `"initialized"`. -/
def getOrCreateScraperState (row : Option ScraperState) : ScraperState :=
  match row with
  | some st => st
  | none => ⟨DEFAULT_START_TICKET_ID, "initialized"⟩

/-- The first identifier probed by `startTicketWatcher`:
`let currentTicketId = state.lastCheckedId` right after
`getOrCreateScraperState()`. -/
def firstProbedId (row : Option ScraperState) : String :=
  (getOrCreateScraperState row).lastCheckedId

/-- C1 counterexample: with a committed cursor of `"cab150"` the watcher
probes `"cab150"` itself first, not its successor `"cab151"` (which is
what `incrementTicketId` would produce). -/
theorem firstProbedId_not_successor :
    incrementTicketId "cab150" = "cab151" ∧
    firstProbedId (some ⟨"cab150", "ok"⟩) = "cab150" ∧
    firstProbedId (some ⟨"cab150", "ok"⟩) ≠ "cab151" := by
  decide

/-- C1 (amended): after a restart the watcher resumes probing at the
committed cursor value itself; the configured default start id is used
only when no cursor row exists, never when one does. -/
theorem firstProbedId_resumes_at_cursor :
    (∀ st : ScraperState, firstProbedId (some st) = st.lastCheckedId) ∧
    firstProbedId none = DEFAULT_START_TICKET_ID ∧
    (∀ st : ScraperState, st.lastCheckedId ≠ DEFAULT_START_TICKET_ID →
      firstProbedId (some st) ≠ DEFAULT_START_TICKET_ID) ∧
    firstProbedId (some ⟨"cab150", "ok"⟩) = "cab150" :=
  ⟨fun _ => rfl, rfl, fun _ h => h, by decide⟩

/-- Witness for `firstProbedId_resumes_at_cursor`: a committed cursor of
`"cab150"` differs from the default start id, so the resumed probe does
too. -/
theorem firstProbedId_resumes_at_cursor_witness :
    firstProbedId (some ⟨"cab150", "ok"⟩) ≠ DEFAULT_START_TICKET_ID :=
  firstProbedId_resumes_at_cursor.2.2.1 ⟨"cab150", "ok"⟩ (by decide)

/-! ### Response classifier: `getTicketSearchResponse` -/

/-- `TicketSearchResult` from `tickets/types.ts`. -/
inductive TicketSearchResult where
  | ACCESSIBLE
  | CAPTCHA
  | CLOSED
  | FAILED_CHALLENGE
  | NO_RESULTS
deriving DecidableEq, Repr

/-- `TicketSearchResponse` from `tickets/types.ts`. -/
structure TicketSearchResponse where
  result : TicketSearchResult
  ticket : Option Ticket
deriving DecidableEq, Repr

namespace TicketMessage

/-- `TicketMessage.REMITTANCE` from `tickets/types.ts`. -/
def REMITTANCE : String := "that are able to be remitted today"

/-- `TicketMessage.CLOSED` from `tickets/types.ts`. -/
def CLOSED : String := "The ticket number you are searching is in a Closed"

/-- `TicketMessage.FAILED_CHALLENGE` from `tickets/types.ts`. -/
def FAILED_CHALLENGE : String := "Failed Challenge. Please Try Again."

/-- `TicketMessage.NO_RESULTS` from `tickets/types.ts`. -/
def NO_RESULTS : String := "No results found that match your search"

end TicketMessage

/-- Does the first list start with the second one? -/
def startsWithL : List Char → List Char → Bool
  | _, [] => true
  | [], _ :: _ => false
  | a :: s, b :: p => a == b && startsWithL s p

/-- JS `String.prototype.includes`, on character lists: the pattern
occurs contiguously somewhere in the text. -/
def includesL : List Char → List Char → Bool
  | [], p => startsWithL [] p
  | c :: rest, p => startsWithL (c :: rest) p || includesL rest p

/-- JS `text.includes(marker)`. -/
def strIncludes (text marker : String) : Bool :=
  includesL text.data marker.data

/-- JS falsiness of a nullable string: `null` and `""` are falsy
(the `if (!textContent)` test). -/
def jsFalsyStr : Option String → Bool
  | none => true
  | some s => decide (s = "")

/-- The page snapshot observed by the classifier: the nullable full body
text, visibility of the `#ticket-search-captcha` marker, and the
locate-and-parse of the result card keyed by an expected id (the
`getTicketDetails` capability, `none` when the card is missing or
unparsable). -/
structure PageSnapshot where
  textContent : Option String
  captchaVisible : Bool
  resultCard : String → Option Ticket

/-- `getTicketSearchResponse` from `ticketScraper.ts`: the five-way
response classifier. -/
def getTicketSearchResponse (ticketId : String) (page : PageSnapshot) :
    TicketSearchResponse :=
  match page.textContent with
  | none => ⟨.NO_RESULTS, none⟩
  | some textContent =>
    if textContent = "" then ⟨.NO_RESULTS, none⟩
    else if page.captchaVisible then ⟨.CAPTCHA, none⟩
    else if strIncludes textContent TicketMessage.FAILED_CHALLENGE then
      ⟨.FAILED_CHALLENGE, none⟩
    else if strIncludes textContent TicketMessage.REMITTANCE ||
        strIncludes textContent TicketMessage.CLOSED then
      ⟨.CLOSED, none⟩
    else if strIncludes textContent TicketMessage.NO_RESULTS then
      ⟨.NO_RESULTS, none⟩
    else
      match page.resultCard ticketId with
      | none => ⟨.NO_RESULTS, none⟩
      | some t => ⟨.ACCESSIBLE, some t⟩

/-- A fixture whose body text contains the no-results phrase while the
challenge marker is simultaneously visible. -/
def mixedSnapshot : PageSnapshot :=
  ⟨some TicketMessage.NO_RESULTS, true, fun _ => none⟩

/-- C2: the classifier checks outcomes in the fixed short-circuit order
empty text, visible challenge marker, failed-challenge phrase,
remittance/closed phrase, no-results phrase, and finally the result
card (located card gives `ACCESSIBLE` with its candidate, otherwise
`NO_RESULTS`); in particular a snapshot with both a visible challenge
marker and the no-results phrase classifies as `CAPTCHA`. -/
theorem getTicketSearchResponse_order :
    (∀ (ticketId : String) (page : PageSnapshot),
      (jsFalsyStr page.textContent = true →
        getTicketSearchResponse ticketId page = ⟨.NO_RESULTS, none⟩) ∧
      (∀ t : String, page.textContent = some t → t ≠ "" →
        (page.captchaVisible = true →
          getTicketSearchResponse ticketId page = ⟨.CAPTCHA, none⟩) ∧
        (page.captchaVisible = false →
          strIncludes t TicketMessage.FAILED_CHALLENGE = true →
          getTicketSearchResponse ticketId page = ⟨.FAILED_CHALLENGE, none⟩) ∧
        (page.captchaVisible = false →
          strIncludes t TicketMessage.FAILED_CHALLENGE = false →
          (strIncludes t TicketMessage.REMITTANCE ||
            strIncludes t TicketMessage.CLOSED) = true →
          getTicketSearchResponse ticketId page = ⟨.CLOSED, none⟩) ∧
        (page.captchaVisible = false →
          strIncludes t TicketMessage.FAILED_CHALLENGE = false →
          strIncludes t TicketMessage.REMITTANCE = false →
          strIncludes t TicketMessage.CLOSED = false →
          strIncludes t TicketMessage.NO_RESULTS = true →
          getTicketSearchResponse ticketId page = ⟨.NO_RESULTS, none⟩) ∧
        (page.captchaVisible = false →
          strIncludes t TicketMessage.FAILED_CHALLENGE = false →
          strIncludes t TicketMessage.REMITTANCE = false →
          strIncludes t TicketMessage.CLOSED = false →
          strIncludes t TicketMessage.NO_RESULTS = false →
          getTicketSearchResponse ticketId page =
            (match page.resultCard ticketId with
             | none => ⟨.NO_RESULTS, none⟩
             | some tk => ⟨.ACCESSIBLE, some tk⟩)))) ∧
    getTicketSearchResponse "cab1" mixedSnapshot = ⟨.CAPTCHA, none⟩ := by
  refine ⟨?_, by decide⟩
  intro ticketId page
  constructor
  · intro hf
    rcases hpt : page.textContent with _ | t
    · simp [getTicketSearchResponse, hpt]
    · rw [hpt] at hf
      simp only [jsFalsyStr, decide_eq_true_eq] at hf
      simp [getTicketSearchResponse, hpt, hf]
  · intro t hpt hne
    refine ⟨?_, ?_, ?_, ?_, ?_⟩ <;> intros <;>
      simp_all [getTicketSearchResponse, hpt]

/-- Witness for `getTicketSearchResponse_order`, covering every branch
of the precedence chain at concrete snapshots. -/
theorem getTicketSearchResponse_order_witness :
    getTicketSearchResponse "cab1"
        ⟨none, false, fun _ => none⟩ = ⟨.NO_RESULTS, none⟩ ∧
    getTicketSearchResponse "cab1" mixedSnapshot = ⟨.CAPTCHA, none⟩ ∧
    getTicketSearchResponse "cab1"
        ⟨some TicketMessage.FAILED_CHALLENGE, false, fun _ => none⟩ =
      ⟨.FAILED_CHALLENGE, none⟩ ∧
    getTicketSearchResponse "cab1"
        ⟨some TicketMessage.REMITTANCE, false, fun _ => none⟩ =
      ⟨.CLOSED, none⟩ ∧
    getTicketSearchResponse "cab1"
        ⟨some TicketMessage.NO_RESULTS, false, fun _ => none⟩ =
      ⟨.NO_RESULTS, none⟩ ∧
    getTicketSearchResponse "cab1"
        ⟨some "hello", false, fun _ => none⟩ = ⟨.NO_RESULTS, none⟩ :=
  ⟨(getTicketSearchResponse_order.1 "cab1" ⟨none, false, fun _ => none⟩).1
      (by decide),
    ((getTicketSearchResponse_order.1 "cab1" mixedSnapshot).2
      TicketMessage.NO_RESULTS rfl (by decide)).1 rfl,
    ((getTicketSearchResponse_order.1 "cab1"
        ⟨some TicketMessage.FAILED_CHALLENGE, false, fun _ => none⟩).2
      TicketMessage.FAILED_CHALLENGE rfl (by decide)).2.1 rfl (by decide),
    ((getTicketSearchResponse_order.1 "cab1"
        ⟨some TicketMessage.REMITTANCE, false, fun _ => none⟩).2
      TicketMessage.REMITTANCE rfl (by decide)).2.2.1 rfl (by decide) (by decide),
    ((getTicketSearchResponse_order.1 "cab1"
        ⟨some TicketMessage.NO_RESULTS, false, fun _ => none⟩).2
      TicketMessage.NO_RESULTS rfl (by decide)).2.2.2.1 rfl (by decide)
      (by decide) (by decide) (by decide),
    ((getTicketSearchResponse_order.1 "cab1"
        ⟨some "hello", false, fun _ => none⟩).2
      "hello" rfl (by decide)).2.2.2.2 rfl (by decide) (by decide) (by decide)
      (by decide)⟩

/-! ### Evidence GPS extractor: the pure tail of `extractGpsFromImageUrl`
(`ocrService.ts`), from recognized text to coordinates.  The regex
`/Lat:\s*([-\d.]+)\s*Lng:\s*([-\d.]+)/i` has character classes disjoint
from the literal letters, so greedy maximal-munch scanning is exactly
its backtracking semantics, and `exec` takes the leftmost match. -/

/-- A JS number as produced by `parseFloat`: `NaN`, a signed infinity,
or a finite value. -/
inductive JsFloat where
  | nan
  | inf (neg : Bool)
  | finite (q : ℚ)
deriving DecidableEq, Repr

/-- `Number.isNaN` — true only for `NaN`; infinities pass. -/
def JsFloat.isNaN : JsFloat → Bool
  | .nan => true
  | _ => false

/-- Does the decimal magnitude `num / den` round to a double of
infinite magnitude?  IEEE-754 round-to-nearest overflows exactly at
`2^1024 - 2^970 = (2^54 - 1) * 2^970` (the midpoint above the largest
finite double, a tie that rounds to the even `2^1024`). -/
def dblOverflows (num den : Nat) : Bool :=
  decide ((2 ^ 54 - 1) * 2 ^ 970 * den ≤ num)

/-- `OcrResult` from `ocrService.ts`; the coordinates are the doubles
`parseFloat` produced. -/
structure OcrResult where
  lat : JsFloat
  lng : JsFloat
  rawText : String
deriving DecidableEq, Repr

/-- Case-insensitive character comparison (the regex `i` flag on the
ASCII literals of the pattern). -/
def charLowerEq (a b : Char) : Bool :=
  a.toLower == b.toLower

/-- Consume a case-insensitive literal, returning the rest of the text. -/
def matchLitCI : List Char → List Char → Option (List Char)
  | s, [] => some s
  | [], _ :: _ => none
  | c :: s, p :: ps => if charLowerEq c p then matchLitCI s ps else none

/-- The regex character class `[-\d.]`. -/
def isNumCharRx (c : Char) : Bool :=
  c.isDigit || c == '-' || c == '.'

/-- The regex class `\s` (common whitespace). -/
def isJsSpace (c : Char) : Bool :=
  c == ' ' || c == '\t' || c == '\n' || c == '\r' || c == '\x0b' || c == '\x0c'

/-- Try to match `Lat:\s*([-\d.]+)\s*Lng:\s*([-\d.]+)` (case-insensitive)
starting at the head of the text, returning the two captured groups. -/
def matchGpsAt (s : List Char) : Option (List Char × List Char) :=
  match matchLitCI s ['l', 'a', 't', ':'] with
  | none => none
  | some s1 =>
    let s2 := s1.dropWhile isJsSpace
    let g1 := s2.takeWhile isNumCharRx
    if g1.isEmpty then none
    else
      let s3 := (s2.dropWhile isNumCharRx).dropWhile isJsSpace
      match matchLitCI s3 ['l', 'n', 'g', ':'] with
      | none => none
      | some s4 =>
        let g2 := (s4.dropWhile isJsSpace).takeWhile isNumCharRx
        if g2.isEmpty then none else some (g1, g2)

/-- `regex.exec`: the leftmost match of the GPS pattern in the text. -/
def findGpsMatch : List Char → Option (List Char × List Char)
  | [] => matchGpsAt []
  | c :: rest =>
    match matchGpsAt (c :: rest) with
    | some r => some r
    | none => findGpsMatch rest

/-- JS `parseFloat` restricted to strings over the class `[-\d.]` (the
only strings the captured groups can be): an optional leading minus,
then integer digits, then an optional fractional part.  `NaN` when no
digit is consumed; a magnitude at or beyond the double overflow bound
`2^1024 - 2^970` gives a signed infinity; in-range values keep their
exact decimal value (the mantissa rounding of in-range doubles is not
modelled; no theorem below depends on it). -/
def jsParseFloat (l : List Char) : JsFloat :=
  let neg : Bool := match l with
    | '-' :: _ => true
    | _ => false
  let l1 := if neg then l.tail else l
  let ip := l1.takeWhile Char.isDigit
  let fp := match l1.dropWhile Char.isDigit with
    | '.' :: rest => rest.takeWhile Char.isDigit
    | _ => []
  if ip.isEmpty && fp.isEmpty then .nan
  else
    let num : Nat := digitsVal ip * 10 ^ fp.length + digitsVal fp
    let den : Nat := 10 ^ fp.length
    if dblOverflows num den then .inf neg
    else .finite (mkRat (if neg then -Int.ofNat num else Int.ofNat num) den)

/-- Lines 76-93 of `ocrService.ts`: match the recognized text against
the GPS pattern, `parseFloat` both captured groups, and reject the
result only when `Number.isNaN` holds of either value (an infinity
passes the check and is returned); a failed match yields `null`, never
an error. -/
def extractGpsFromText (rawText : String) : Option OcrResult :=
  match findGpsMatch rawText.data with
  | none => none
  | some (g1, g2) =>
    let lat := jsParseFloat g1
    let lng := jsParseFloat g2
    if lat.isNaN || lng.isNaN then none
    else some ⟨lat, lng, rawText⟩

/-- A recognized text whose first captured group is 400 `'9'`
characters — a decimal far above the double overflow bound. -/
def hugeOverlay : String :=
  String.mk ("Lat: ".data ++ List.replicate 400 '9' ++ " Lng: 1".data)

/-- C4 counterexample: a captured group that fails to parse as a finite
number is not always rejected — the 400-nines group parses to positive
`Infinity`, which passes the source's `Number.isNaN`-only check, and
extraction returns it instead of nothing. -/
theorem extractGps_accepts_nonfinite :
    jsParseFloat (List.replicate 400 '9') = JsFloat.inf false ∧
    (JsFloat.inf false).isNaN = false ∧
    extractGpsFromText hugeOverlay =
      some ⟨JsFloat.inf false, JsFloat.finite (mkRat 1 1), hugeOverlay⟩ := by
  decide

/-- C4 (amended): extraction yields `none` (not an error) whenever the
recognized text has no GPS-pattern match or either captured group
parses to `NaN` — but only `NaN` is rejected: a group parsing to a
non-finite `Infinity` passes the check and is returned like any other
value; on the well-formed overlay `"Lat: 42.4440 Lng: -76.5019"` the
result carries exactly latitude 42.444 and longitude -76.5019 together
with the raw recognized text. -/
theorem extractGpsFromText_spec :
    (∀ t : String, findGpsMatch t.data = none → extractGpsFromText t = none) ∧
    (∀ (t : String) (g1 g2 : List Char),
      findGpsMatch t.data = some (g1, g2) →
      (jsParseFloat g1).isNaN = true ∨ (jsParseFloat g2).isNaN = true →
      extractGpsFromText t = none) ∧
    (∀ (t : String) (g1 g2 : List Char),
      findGpsMatch t.data = some (g1, g2) →
      (jsParseFloat g1).isNaN = false → (jsParseFloat g2).isNaN = false →
      extractGpsFromText t = some ⟨jsParseFloat g1, jsParseFloat g2, t⟩) ∧
    extractGpsFromText "Lat: 42.4440 Lng: -76.5019" =
      some ⟨.finite (mkRat 424440 10000), .finite (mkRat (-765019) 10000),
        "Lat: 42.4440 Lng: -76.5019"⟩ := by
  refine ⟨?_, ?_, ?_, by decide⟩
  · intro t h
    simp [extractGpsFromText, h]
  · intro t g1 g2 h hp
    rcases hp with hp | hp <;> simp [extractGpsFromText, h, hp]
  · intro t g1 g2 h h1 h2
    simp [extractGpsFromText, h, h1, h2]

/-- Witness for `extractGpsFromText_spec`: no-match on `"hello"`, a
match on `"Lat: - Lng: 5"` whose first group `"-"` parses to `NaN`, and
a passing match on `"Lat: 1 Lng: 2"`. -/
theorem extractGpsFromText_spec_witness :
    extractGpsFromText "hello" = none ∧
    extractGpsFromText "Lat: - Lng: 5" = none ∧
    extractGpsFromText "Lat: 1 Lng: 2" =
      some ⟨jsParseFloat ['1'], jsParseFloat ['2'], "Lat: 1 Lng: 2"⟩ :=
  ⟨extractGpsFromText_spec.1 "hello" (by decide),
    extractGpsFromText_spec.2.1 "Lat: - Lng: 5" ['-'] ['5'] (by decide)
      (Or.inl (by decide)),
    extractGpsFromText_spec.2.2.1 "Lat: 1 Lng: 2" ['1'] ['2'] (by decide)
      (by decide) (by decide)⟩

/-! ### Backoff scheduler: `BACKOFF_LIST` and the inner wait loop -/

/-- `BackoffNode` from `tickets/types.ts`: a linked list of wait
durations; `next = null` is the `last` constructor. -/
inductive BackoffNode where
  | last (backoff : Nat)
  | cons (backoff : Nat) (next : BackoffNode)
deriving DecidableEq, Repr

/-- The `backoff` field of a node. -/
def BackoffNode.backoff : BackoffNode → Nat
  | .last b => b
  | .cons b _ => b

/-- `BACKOFF_LIST` from `tickets/types.ts`: ten seconds, thirty seconds,
one minute. -/
def BACKOFF_LIST : BackoffNode :=
  .cons 10000 (.cons 30000 (.last 60000))

/-- One use of the cursor, lines 411-413 of `ticketScraper.ts`:
`if (backoffNode.next != null) backoffNode = backoffNode.next`, i.e. the
cursor saturates at the final node. -/
def BackoffNode.advance : BackoffNode → BackoffNode
  | .last b => .last b
  | .cons _ n => n

/-- The ordered list of durations of a backoff sequence. -/
def BackoffNode.toList : BackoffNode → List Nat
  | .last b => [b]
  | .cons b n => b :: n.toList

/-- The final (saturating) node of a backoff sequence. -/
def BackoffNode.finalNode : BackoffNode → BackoffNode
  | .last b => .last b
  | .cons _ n => n.finalNode

/-- The duration consumed by the k-th use of a cursor that started at
`node` (each use advances the cursor once afterwards). -/
def durationsTaken (node : BackoffNode) (k : Nat) : Nat :=
  (BackoffNode.advance^[k] node).backoff

/-- The inner wait loop of `startTicketWatcher` (lines 396-414), driven
by the list of successive search responses: each `NO_RESULTS` response
sleeps for the cursor's current duration and advances the cursor; the
first non-`NO_RESULTS` response stops the loop with its ticket.  The
first component collects the sleep durations; a `none` second component
means the response stream was exhausted while still waiting. -/
def innerWait :
    List TicketSearchResponse → BackoffNode → List Nat × Option (Option Ticket)
  | [], _ => ([], none)
  | r :: rest, node =>
    if r.result = TicketSearchResult.NO_RESULTS then
      let out := innerWait rest node.advance
      (node.backoff :: out.1, out.2)
    else ([], some r.ticket)

/-- A wait-for-appearance episode: line 393 obtains a fresh cursor at
`BACKOFF_LIST` before the inner loop starts. -/
def waitEpisode (resps : List TicketSearchResponse) :
    List Nat × Option (Option Ticket) :=
  innerWait resps BACKOFF_LIST

/-- Every backoff sequence is nonempty. -/
theorem BackoffNode.toList_length_pos (node : BackoffNode) :
    0 < node.toList.length := by
  cases node <;> simp [BackoffNode.toList]

/-- Advancing a cursor over a non-decreasing sequence does not decrease
the current duration and preserves the non-decreasing property. -/
theorem advance_backoff_le {node : BackoffNode}
    (h : List.Chain' (· ≤ ·) node.toList) :
    node.backoff ≤ node.advance.backoff ∧
      List.Chain' (· ≤ ·) node.advance.toList := by
  cases node with
  | last b => exact ⟨le_refl b, h⟩
  | cons b n =>
    simp only [BackoffNode.toList] at h
    rcases List.chain'_cons'.mp h with ⟨h1, h2⟩
    refine ⟨?_, h2⟩
    have hh : n.toList.head? = some n.backoff := by
      cases n <;> rfl
    exact h1 n.backoff (by simp [hh])

/-- The non-decreasing property is preserved along every iterate of
`advance`. -/
theorem chain_iterate_advance {node : BackoffNode}
    (h : List.Chain' (· ≤ ·) node.toList) (k : Nat) :
    List.Chain' (· ≤ ·) ((BackoffNode.advance^[k] node).toList) := by
  induction k with
  | zero => simpa using h
  | succ k ih =>
    rw [Function.iterate_succ_apply']
    exact (advance_backoff_le ih).2

/-- `advance` fixes a final node, at every iterate. -/
theorem iterate_advance_last (b : Nat) (k : Nat) :
    BackoffNode.advance^[k] (BackoffNode.last b) = BackoffNode.last b := by
  induction k with
  | zero => rfl
  | succ k ih =>
    rw [Function.iterate_succ_apply]
    simpa [BackoffNode.advance] using ih

/-- Once at least `length - 1` advances have happened, the cursor sits at
the final node (it never cycles). -/
theorem iterate_advance_saturate :
    ∀ (node : BackoffNode) (k : Nat), node.toList.length - 1 ≤ k →
      BackoffNode.advance^[k] node = node.finalNode := by
  intro node
  induction node with
  | last b =>
    intro k _
    simpa [BackoffNode.finalNode] using iterate_advance_last b k
  | cons b n ih =>
    intro k hk
    have hlen : 0 < n.toList.length := n.toList_length_pos
    simp only [BackoffNode.toList, List.length_cons] at hk
    obtain ⟨k', rfl⟩ : ∃ k', k = k' + 1 := ⟨k - 1, by omega⟩
    rw [Function.iterate_succ_apply]
    simp only [BackoffNode.advance, BackoffNode.finalNode]
    exact ih k' (by omega)

/-- The sleeps recorded by the inner wait loop are exactly the cursor's
duration sequence from its starting node. -/
theorem innerWait_sleeps :
    ∀ (resps : List TicketSearchResponse) (node : BackoffNode) (k d : Nat),
      (innerWait resps node).1.get? k = some d → d = durationsTaken node k := by
  intro resps
  induction resps with
  | nil => intro node k d h; simp [innerWait] at h
  | cons r rest ih =>
    intro node k d h
    by_cases hr : r.result = TicketSearchResult.NO_RESULTS
    · simp only [innerWait, hr, if_pos] at h
      cases k with
      | zero =>
        simp only [List.get?_cons_zero, Option.some.injEq] at h
        rw [← h, durationsTaken, Function.iterate_zero_apply]
      | succ k =>
        simp only [List.get?_cons_succ] at h
        rw [ih node.advance k d h, durationsTaken, durationsTaken,
          Function.iterate_succ_apply]
    · simp [innerWait, hr] at h

/-- C6: for every backoff sequence with non-decreasing durations, the
durations consumed across successive advances are non-decreasing and
saturate at the final element; three uses of the sequence `[10, 30]`
yield `10, 30, 30`; and every sleep of a wait episode comes from a
cursor that started fresh at `BACKOFF_LIST`. -/
theorem backoff_spec :
    (∀ node : BackoffNode, List.Chain' (· ≤ ·) node.toList →
      (∀ j k : Nat, j ≤ k → durationsTaken node j ≤ durationsTaken node k) ∧
      (∀ k : Nat, node.toList.length - 1 ≤ k →
        durationsTaken node k = node.finalNode.backoff)) ∧
    (durationsTaken (.cons 10 (.last 30)) 0 = 10 ∧
      durationsTaken (.cons 10 (.last 30)) 1 = 30 ∧
      durationsTaken (.cons 10 (.last 30)) 2 = 30) ∧
    (∀ (resps : List TicketSearchResponse) (k d : Nat),
      (waitEpisode resps).1.get? k = some d →
        d = durationsTaken BACKOFF_LIST k) := by
  refine ⟨?_, ⟨by decide, by decide, by decide⟩, ?_⟩
  · intro node h
    constructor
    · have step : ∀ k, durationsTaken node k ≤ durationsTaken node (k + 1) := by
        intro k
        have hs := (advance_backoff_le (chain_iterate_advance h k)).1
        rw [durationsTaken, durationsTaken, Function.iterate_succ_apply']
        exact hs
      exact fun j k hjk => monotone_nat_of_le_succ step hjk
    · intro k hk
      rw [durationsTaken, iterate_advance_saturate node k hk]
  · exact fun resps k d h => innerWait_sleeps resps BACKOFF_LIST k d h

/-- Witness for `backoff_spec`: the production sequence `BACKOFF_LIST` is
non-decreasing, its third and later uses hold at one minute, and the
first sleep of a one-response episode is ten seconds. -/
theorem backoff_spec_witness :
    durationsTaken BACKOFF_LIST 0 ≤ durationsTaken BACKOFF_LIST 2 ∧
    durationsTaken BACKOFF_LIST 4 = BACKOFF_LIST.finalNode.backoff ∧
    (10000 : Nat) = durationsTaken BACKOFF_LIST 0 :=
  ⟨((backoff_spec.1 BACKOFF_LIST
      (by simp [BACKOFF_LIST, BackoffNode.toList, List.chain'_cons])).1) 0 2
      (by decide),
    ((backoff_spec.1 BACKOFF_LIST
      (by simp [BACKOFF_LIST, BackoffNode.toList, List.chain'_cons])).2) 4
      (by decide),
    backoff_spec.2.2 [⟨TicketSearchResult.NO_RESULTS, none⟩] 0 10000 (by decide)⟩

/-! ### Challenge resolver: the CAPTCHA/FAILED_CHALLENGE loop of
`searchForTicket` (lines 286-350 of `ticketScraper.ts`).  External
effects are supplied by an environment: `searchResults k` is the
classification obtained by the k-th re-submitted search,
`solveResults k` the success of the k-th `solveCaptcha` call, and
`cfgKey` whether `TWOCAPTCHA_API_KEY` is configured. -/

/-- Externally visible actions of a resolver iteration. -/
inductive ChallengeAction where
  | reload
  | solve
deriving DecidableEq, Repr

/-- The oracles consumed by the challenge loop. -/
structure ChallengeEnv where
  cfgKey : Bool
  solveResults : Nat → Bool
  searchResults : Nat → TicketSearchResponse

/-- Result of the challenge loop: final response, number of loop
iterations (`captchaAttempts`), and the action trace. -/
structure ResolveOutcome where
  response : TicketSearchResponse
  attempts : Nat
  trace : List ChallengeAction
deriving DecidableEq, Repr

/-- Is a classification one of the two challenge outcomes? -/
def isChallenge (r : TicketSearchResponse) : Bool :=
  decide (r.result = TicketSearchResult.CAPTCHA) ||
    decide (r.result = TicketSearchResult.FAILED_CHALLENGE)

/-- `maxCaptchaAttempts` from `ticketScraper.ts`. -/
def maxCaptchaAttempts : Nat := 5

/-- The while loop of `searchForTicket`: as long as the response is a
challenge and attempts remain, a `FAILED_CHALLENGE` reloads and
reissues the search with no solving attempt; a `CAPTCHA` attempts a
solver call only when the credential is configured (on a successful
solve the search is reissued and, if no longer a challenge, the loop
breaks with that response; otherwise it falls through to the reload),
and otherwise reloads and reissues.  `fuel` is the remaining attempt
budget `maxCaptchaAttempts - captchaAttempts`; `ki` and `si` index the
search and solve oracles. -/
def resolveChallenges (env : ChallengeEnv) :
    Nat → Nat → Nat → TicketSearchResponse → ResolveOutcome
  | 0, _, _, resp => ⟨resp, 0, []⟩
  | fuel + 1, ki, si, resp =>
    if isChallenge resp = true then
      if resp.result = TicketSearchResult.FAILED_CHALLENGE then
        let r := resolveChallenges env fuel (ki + 1) si (env.searchResults ki)
        ⟨r.response, r.attempts + 1, .reload :: r.trace⟩
      else if env.cfgKey = true then
        if env.solveResults si = true then
          if isChallenge (env.searchResults ki) = false then
            ⟨env.searchResults ki, 1, [.solve]⟩
          else
            let r := resolveChallenges env fuel (ki + 2) (si + 1)
              (env.searchResults (ki + 1))
            ⟨r.response, r.attempts + 1, .solve :: .reload :: r.trace⟩
        else
          let r := resolveChallenges env fuel (ki + 1) (si + 1)
            (env.searchResults ki)
          ⟨r.response, r.attempts + 1, .solve :: .reload :: r.trace⟩
      else
        let r := resolveChallenges env fuel (ki + 1) si (env.searchResults ki)
        ⟨r.response, r.attempts + 1, .reload :: r.trace⟩
    else ⟨resp, 0, []⟩

/-- `searchForTicket`'s challenge handling, started on the initial
classification with the full attempt budget. -/
def searchForTicket (env : ChallengeEnv) (initial : TicketSearchResponse) :
    ResolveOutcome :=
  resolveChallenges env maxCaptchaAttempts 0 0 initial

/-- The loop performs at most `fuel` iterations, and if the final
response is still a challenge then the whole budget was consumed. -/
theorem resolveChallenges_bound (env : ChallengeEnv) :
    ∀ (fuel ki si : Nat) (resp : TicketSearchResponse),
      (resolveChallenges env fuel ki si resp).attempts ≤ fuel ∧
      (isChallenge (resolveChallenges env fuel ki si resp).response = false ∨
        (resolveChallenges env fuel ki si resp).attempts = fuel) := by
  intro fuel
  induction fuel with
  | zero => exact fun ki si resp => ⟨le_refl 0, Or.inr rfl⟩
  | succ fuel ih =>
    intro ki si resp
    simp only [resolveChallenges]
    by_cases hch : isChallenge resp = true
    · rw [if_pos hch]
      by_cases hfc : resp.result = TicketSearchResult.FAILED_CHALLENGE
      · rw [if_pos hfc]
        rcases ih (ki + 1) si (env.searchResults ki) with ⟨h1, h2⟩
        exact ⟨Nat.succ_le_succ h1, h2.imp id (fun h => by rw [h])⟩
      · rw [if_neg hfc]
        by_cases hk : env.cfgKey = true
        · rw [if_pos hk]
          by_cases hs : env.solveResults si = true
          · rw [if_pos hs]
            by_cases hr2 : isChallenge (env.searchResults ki) = false
            · rw [if_pos hr2]
              exact ⟨Nat.succ_le_succ (Nat.zero_le fuel), Or.inl hr2⟩
            · rw [if_neg hr2]
              rcases ih (ki + 2) (si + 1) (env.searchResults (ki + 1)) with
                ⟨h1, h2⟩
              exact ⟨Nat.succ_le_succ h1, h2.imp id (fun h => by rw [h])⟩
          · rw [if_neg hs]
            rcases ih (ki + 1) (si + 1) (env.searchResults ki) with ⟨h1, h2⟩
            exact ⟨Nat.succ_le_succ h1, h2.imp id (fun h => by rw [h])⟩
        · rw [if_neg hk]
          rcases ih (ki + 1) si (env.searchResults ki) with ⟨h1, h2⟩
          exact ⟨Nat.succ_le_succ h1, h2.imp id (fun h => by rw [h])⟩
    · rw [if_neg hch]
      exact ⟨Nat.zero_le _, Or.inl (by simpa using hch)⟩

/-- C7: the challenge loop makes at most 5 attempts per search episode;
on `FAILED_CHALLENGE` it reloads and reissues with no solving attempt;
on `CAPTCHA` it calls the solver first exactly when the credential is
configured and otherwise only reloads and reissues; a non-challenge
initial outcome is returned untouched, and a final challenge outcome
means the attempt bound was reached. -/
theorem searchForTicket_challenge_policy :
    (∀ (env : ChallengeEnv) (r0 : TicketSearchResponse),
      (searchForTicket env r0).attempts ≤ maxCaptchaAttempts) ∧
    (∀ (env : ChallengeEnv) (r0 : TicketSearchResponse),
      isChallenge (searchForTicket env r0).response = false ∨
        (searchForTicket env r0).attempts = maxCaptchaAttempts) ∧
    (∀ (env : ChallengeEnv) (r0 : TicketSearchResponse),
      isChallenge r0 = false → searchForTicket env r0 = ⟨r0, 0, []⟩) ∧
    (∀ (env : ChallengeEnv) (fuel ki si : Nat) (resp : TicketSearchResponse),
      resp.result = TicketSearchResult.FAILED_CHALLENGE →
      resolveChallenges env (fuel + 1) ki si resp =
        ⟨(resolveChallenges env fuel (ki + 1) si (env.searchResults ki)).response,
          (resolveChallenges env fuel (ki + 1) si (env.searchResults ki)).attempts
            + 1,
          .reload ::
            (resolveChallenges env fuel (ki + 1) si (env.searchResults ki)).trace⟩) ∧
    (∀ (env : ChallengeEnv) (fuel ki si : Nat) (resp : TicketSearchResponse),
      resp.result = TicketSearchResult.CAPTCHA → env.cfgKey = false →
      resolveChallenges env (fuel + 1) ki si resp =
        ⟨(resolveChallenges env fuel (ki + 1) si (env.searchResults ki)).response,
          (resolveChallenges env fuel (ki + 1) si (env.searchResults ki)).attempts
            + 1,
          .reload ::
            (resolveChallenges env fuel (ki + 1) si (env.searchResults ki)).trace⟩) ∧
    (∀ (env : ChallengeEnv) (fuel ki si : Nat) (resp : TicketSearchResponse),
      resp.result = TicketSearchResult.CAPTCHA → env.cfgKey = true →
      (resolveChallenges env (fuel + 1) ki si resp).trace.head? =
        some ChallengeAction.solve) := by
  refine ⟨?_, ?_, ?_, ?_, ?_, ?_⟩
  · exact fun env r0 => (resolveChallenges_bound env maxCaptchaAttempts 0 0 r0).1
  · exact fun env r0 => (resolveChallenges_bound env maxCaptchaAttempts 0 0 r0).2
  · intro env r0 h
    simp [searchForTicket, maxCaptchaAttempts, resolveChallenges, h]
  · intro env fuel ki si resp h
    simp [resolveChallenges, isChallenge, h]
  · intro env fuel ki si resp h hk
    simp [resolveChallenges, isChallenge, h, hk]
  · intro env fuel ki si resp h hk
    have hch : isChallenge resp = true := by simp [isChallenge, h]
    have hfc : ¬resp.result = TicketSearchResult.FAILED_CHALLENGE := by simp [h]
    simp only [resolveChallenges]
    rw [if_pos hch, if_neg hfc, if_pos hk]
    by_cases hs : env.solveResults si = true
    · rw [if_pos hs]
      by_cases hr2 : isChallenge (env.searchResults ki) = false
      · rw [if_pos hr2]
        rfl
      · rw [if_neg hr2]
        rfl
    · rw [if_neg hs]
      rfl

/-- Witness for `searchForTicket_challenge_policy`: a concrete
environment with no credential and a constant `NO_RESULTS` oracle,
applied to a captcha, a failed challenge, and a non-challenge start. -/
theorem searchForTicket_challenge_policy_witness :
    (searchForTicket
        ⟨false, fun _ => false, fun _ => ⟨TicketSearchResult.NO_RESULTS, none⟩⟩
        ⟨TicketSearchResult.CAPTCHA, none⟩).attempts ≤ maxCaptchaAttempts ∧
    searchForTicket
        ⟨false, fun _ => false, fun _ => ⟨TicketSearchResult.NO_RESULTS, none⟩⟩
        ⟨TicketSearchResult.NO_RESULTS, none⟩ =
      ⟨⟨TicketSearchResult.NO_RESULTS, none⟩, 0, []⟩ ∧
    (resolveChallenges
        ⟨false, fun _ => false, fun _ => ⟨TicketSearchResult.NO_RESULTS, none⟩⟩
        1 0 0 ⟨TicketSearchResult.FAILED_CHALLENGE, none⟩).trace =
      [ChallengeAction.reload] ∧
    (resolveChallenges
        ⟨true, fun _ => true, fun _ => ⟨TicketSearchResult.NO_RESULTS, none⟩⟩
        1 0 0 ⟨TicketSearchResult.CAPTCHA, none⟩).trace.head? =
      some ChallengeAction.solve := by
  refine ⟨?_, ?_, ?_, ?_⟩
  · exact searchForTicket_challenge_policy.1 _ _
  · exact searchForTicket_challenge_policy.2.2.1 _ _ (by decide)
  · rw [searchForTicket_challenge_policy.2.2.2.1
      ⟨false, fun _ => false, fun _ => ⟨TicketSearchResult.NO_RESULTS, none⟩⟩
      0 0 0 ⟨TicketSearchResult.FAILED_CHALLENGE, none⟩ rfl]
    decide
  · exact searchForTicket_challenge_policy.2.2.2.2.2
      ⟨true, fun _ => true, fun _ => ⟨TicketSearchResult.NO_RESULTS, none⟩⟩
      0 0 0 ⟨TicketSearchResult.CAPTCHA, none⟩ rfl rfl

/-! ### Durable cursor update, persistence and the per-id resolution
tail of the orchestrator loop (lines 389-459 of `ticketScraper.ts`). -/

/-- The parameter object of `updateScraperState`; `none` is an omitted
field. -/
structure UpdateParams where
  lastCheckedId : Option String := none
  status : Option String := none
deriving DecidableEq, Repr

/-- `updateScraperState` from `ticketScraper.ts`: each field is spread
into the update only when truthy (present and non-empty), otherwise the
stored field is left unchanged. -/
def updateScraperState (st : ScraperState) (p : UpdateParams) : ScraperState :=
  { lastCheckedId :=
      match p.lastCheckedId with
      | some s => if s = "" then st.lastCheckedId else s
      | none => st.lastCheckedId,
    status :=
      match p.status with
      | some s => if s = "" then st.status else s
      | none => st.status }

/-- `10 * 60 * 1000` milliseconds, the freshness window (line 449). -/
def notifyWindowMs : Int := 10 * 60 * 1000

/-- Line 451: `ticket.timestamp >= tenMinutesAgo` with
`tenMinutesAgo = now - notifyWindowMs`. -/
def shouldBroadcast (now ts : Int) : Bool :=
  decide (ts ≥ now - notifyWindowMs)

/-- Lines 426-440: `findUnique` by ticket id; when a row exists creation
is skipped and the existing row is used, otherwise the row is created.
Components: resulting store, the row used afterwards (`ticket`), and
whether a new row was created. -/
def persistTicket (store : List Ticket) (ft : Ticket) :
    List Ticket × Ticket × Bool :=
  match store.find? (fun t => t.ticketId == ft.ticketId) with
  | some t => (store, t, false)
  | none => (store ++ [ft], ft, true)

/-- Externally visible operations of one orchestrator cycle, in program
order. -/
inductive Op where
  | setState (p : UpdateParams)
  | createRec (t : Ticket)
  | broadcastOp (t : Ticket)
  | advanceId (next : String)
deriving DecidableEq, Repr

/-- Effect of a cycle's operations on the durable cursor row: only
`setState` touches it, through `updateScraperState`. -/
def applyOps (st : ScraperState) (ops : List Op) : ScraperState :=
  ops.foldl
    (fun s op =>
      match op with
      | Op.setState p => updateScraperState s p
      | _ => s)
    st

/-- Result of the per-id resolution tail of the loop body. -/
structure CycleOut where
  store : List Ticket
  broadcast : Bool
  nextId : String
  ops : List Op
deriving Repr

/-- Lines 416-424: no ticket was found for the id; status becomes
`no_results`, `lastCheckedId` is not written, and the id advances. -/
def resolveNotFoundPath (currentId : String) (store : List Ticket) : CycleOut :=
  ⟨store, false, incrementTicketId currentId,
    [Op.setState ⟨none, some "no_results"⟩,
      Op.advanceId (incrementTicketId currentId)]⟩

/-- Lines 426-459: a ticket was found; persist it idempotently, commit
`lastCheckedId := currentId` with status `ok`, take the broadcast branch
exactly when the used row's timestamp is inside the freshness window,
then advance the id. -/
def resolveFoundPath (currentId : String) (ft : Ticket) (store : List Ticket)
    (now : Int) : CycleOut :=
  let pr := persistTicket store ft
  let bc := shouldBroadcast now pr.2.1.timestamp
  ⟨pr.1, bc, incrementTicketId currentId,
    (if pr.2.2 then [Op.createRec ft] else []) ++
      Op.setState ⟨some currentId, some "ok"⟩ ::
        ((if bc then [Op.broadcastOp pr.2.1] else []) ++
          [Op.advanceId (incrementTicketId currentId)])⟩

/-- One full resolution of an id by the orchestrator loop body, given
the inner wait loop's outcome `found` (line 389's `checking` status
update included). -/
def resolveCycle (currentId : String) (found : Option Ticket)
    (store : List Ticket) (now : Int) : CycleOut :=
  let inner :=
    match found with
    | none => resolveNotFoundPath currentId store
    | some ft => resolveFoundPath currentId ft store now
  ⟨inner.store, inner.broadcast, inner.nextId,
    Op.setState ⟨none, some ("checking " ++ currentId)⟩ :: inner.ops⟩

/-- A fixed sample record used in concrete counterexamples. -/
def sampleTicket : Ticket :=
  ⟨"cab151", none, none, 0, none, none, none⟩

/-- C10: the cursor update writes only truthy fields — an omitted or
empty-string field leaves the corresponding durable field unchanged, so
this operation can never set `lastCheckedId` to the empty string. -/
theorem updateScraperState_frame :
    ∀ (st : ScraperState) (p : UpdateParams),
      (p.lastCheckedId = none →
        (updateScraperState st p).lastCheckedId = st.lastCheckedId) ∧
      (p.lastCheckedId = some "" →
        (updateScraperState st p).lastCheckedId = st.lastCheckedId) ∧
      (p.status = none → (updateScraperState st p).status = st.status) ∧
      (p.status = some "" → (updateScraperState st p).status = st.status) ∧
      ((updateScraperState st p).lastCheckedId = "" →
        st.lastCheckedId = "") := by
  intro st p
  refine ⟨?_, ?_, ?_, ?_, ?_⟩
  · intro h; simp [updateScraperState, h]
  · intro h; simp [updateScraperState, h]
  · intro h; simp [updateScraperState, h]
  · intro h; simp [updateScraperState, h]
  · intro h
    rcases hp : p.lastCheckedId with _ | s
    · simpa [updateScraperState, hp] using h
    · by_cases hs : s = ""
      · simpa [updateScraperState, hp, hs] using h
      · simp [updateScraperState, hp, hs] at h

/-- Witness for `updateScraperState_frame`: concrete frames for omitted
and empty fields, and empty-preservation on an already-empty cursor. -/
theorem updateScraperState_frame_witness :
    (updateScraperState ⟨"cab150", "ok"⟩
        ⟨none, some ""⟩).lastCheckedId = "cab150" ∧
    (updateScraperState ⟨"cab150", "ok"⟩ ⟨none, some ""⟩).status = "ok" ∧
    (updateScraperState ⟨"cab150", "ok"⟩
        ⟨some "", none⟩).lastCheckedId = "cab150" ∧
    (updateScraperState ⟨"cab150", "ok"⟩ ⟨some "", none⟩).status = "ok" ∧
    (⟨"", "x"⟩ : ScraperState).lastCheckedId = "" :=
  ⟨(updateScraperState_frame ⟨"cab150", "ok"⟩ ⟨none, some ""⟩).1 rfl,
    (updateScraperState_frame ⟨"cab150", "ok"⟩ ⟨none, some ""⟩).2.2.2.1 rfl,
    (updateScraperState_frame ⟨"cab150", "ok"⟩ ⟨some "", none⟩).2.1 rfl,
    (updateScraperState_frame ⟨"cab150", "ok"⟩ ⟨some "", none⟩).2.2.1 rfl,
    (updateScraperState_frame ⟨"", "x"⟩ ⟨none, none⟩).2.2.2.2 (by decide)⟩

/-- A positive occurrence count guarantees `find?` succeeds. -/
theorem find?_of_countP_pos {p : Ticket → Bool} :
    ∀ {store : List Ticket}, 0 < store.countP p →
      ∃ t, store.find? p = some t := by
  intro store
  induction store with
  | nil =>
    intro h
    rw [List.countP_nil] at h
    omega
  | cons a l ih =>
    intro h
    by_cases ha : p a = true
    · exact ⟨a, List.find?_cons_of_pos l ha⟩
    · have hl : 0 < l.countP p := by
        simpa [List.countP_cons, ha] using h
      rcases ih hl with ⟨t, ht⟩
      exact ⟨t, by rw [List.find?_cons_of_neg l (by simpa using ha), ht]⟩

/-- C8: persistence is idempotent by identifier — when the store already
holds exactly one record with the candidate's id, a new persistence
attempt changes nothing, creates nothing, and leaves exactly one record
with that id. -/
theorem persistTicket_idempotent :
    ∀ (store : List Ticket) (ft : Ticket),
      store.countP (fun t => t.ticketId == ft.ticketId) = 1 →
      (persistTicket store ft).1 = store ∧
      (persistTicket store ft).2.2 = false ∧
      (persistTicket store ft).1.countP
        (fun t => t.ticketId == ft.ticketId) = 1 := by
  intro store ft h
  rcases @find?_of_countP_pos (fun t => t.ticketId == ft.ticketId) store
      (by omega) with ⟨t, ht⟩
  refine ⟨?_, ?_, ?_⟩ <;> simp [persistTicket, ht, h]

/-- Witness for `persistTicket_idempotent` at a one-record store. -/
theorem persistTicket_idempotent_witness :
    (persistTicket [sampleTicket] sampleTicket).1 = [sampleTicket] ∧
    (persistTicket [sampleTicket] sampleTicket).2.2 = false ∧
    (persistTicket [sampleTicket] sampleTicket).1.countP
      (fun t => t.ticketId == sampleTicket.ticketId) = 1 :=
  persistTicket_idempotent [sampleTicket] sampleTicket (by decide)

/-- C3 counterexample: a record that already exists in the store (not
genuinely new — nothing is created) still takes the notification branch
when its timestamp is fresh. -/
theorem broadcast_of_existing_record :
    (persistTicket [sampleTicket] sampleTicket).2.2 = false ∧
    (resolveFoundPath "cab151" sampleTicket [sampleTicket] 0).broadcast
      = true := by
  decide

/-- C3 (amended): the notification branch is taken exactly when the used
record's timestamp is within the ten-minute freshness window of now,
regardless of whether the record was genuinely new; in particular a
record nine minutes old is forwarded and one eleven minutes old is not. -/
theorem broadcast_iff_fresh :
    (∀ (id : String) (ft : Ticket) (store : List Ticket) (now : Int),
      (resolveFoundPath id ft store now).broadcast =
        shouldBroadcast now (persistTicket store ft).2.1.timestamp) ∧
    (∀ now : Int, shouldBroadcast now (now - 9 * 60 * 1000) = true) ∧
    (∀ now : Int, shouldBroadcast now (now - 11 * 60 * 1000) = false) := by
  refine ⟨fun _ _ _ _ => rfl, ?_, ?_⟩
  · intro now
    simp only [shouldBroadcast, notifyWindowMs, decide_eq_true_eq]
    omega
  · intro now
    simp only [shouldBroadcast, notifyWindowMs, decide_eq_false_iff_not]
    omega

/-- C9 counterexample: resolving an id without a record (line 416's
path) does not write `lastCheckedId` at all — after resolving
`"cab151"` the durable cursor still holds `"cab150"`. -/
theorem cursor_not_committed_without_record :
    (applyOps ⟨"cab150", "ok"⟩
        (resolveCycle "cab151" none [] 0).ops).lastCheckedId = "cab150" ∧
    ("cab150" : String) ≠ "cab151" := by
  decide

/-- C9 (amended): `lastCheckedId` is committed only on the found-record
path, where it is set to the resolved id and the commit operation
precedes the advance of the in-flight id; on the no-record path only
the status is written (`lastCheckedId` is unchanged) although the id
still advances. -/
theorem cursor_commit_policy :
    (∀ (id : String) (ft : Ticket) (store : List Ticket) (now : Int)
        (st : ScraperState), id ≠ "" →
      (applyOps st (resolveCycle id (some ft) store now).ops).lastCheckedId
          = id ∧
      (∃ k j : Nat, k < j ∧
        (resolveCycle id (some ft) store now).ops.get? k =
          some (Op.setState ⟨some id, some "ok"⟩) ∧
        (resolveCycle id (some ft) store now).ops.get? j =
          some (Op.advanceId (incrementTicketId id)))) ∧
    (∀ (id : String) (store : List Ticket) (now : Int) (st : ScraperState),
      applyOps st (resolveCycle id none store now).ops =
        ⟨st.lastCheckedId, "no_results"⟩ ∧
      (resolveCycle id none store now).nextId = incrementTicketId id) := by
  constructor
  · intro id ft store now st hid
    constructor
    · cases hc : (persistTicket store ft).2.2 <;>
        cases hb : shouldBroadcast now (persistTicket store ft).2.1.timestamp <;>
          simp [resolveCycle, resolveFoundPath, hc, hb, applyOps,
            updateScraperState, hid]
    · cases hc : (persistTicket store ft).2.2 <;>
        cases hb : shouldBroadcast now (persistTicket store ft).2.1.timestamp
      · have hops : (resolveCycle id (some ft) store now).ops =
            [Op.setState ⟨none, some ("checking " ++ id)⟩,
              Op.setState ⟨some id, some "ok"⟩,
              Op.advanceId (incrementTicketId id)] := by
          simp [resolveCycle, resolveFoundPath, hc, hb]
        exact ⟨1, 2, by omega, by rw [hops]; rfl, by rw [hops]; rfl⟩
      · have hops : (resolveCycle id (some ft) store now).ops =
            [Op.setState ⟨none, some ("checking " ++ id)⟩,
              Op.setState ⟨some id, some "ok"⟩,
              Op.broadcastOp (persistTicket store ft).2.1,
              Op.advanceId (incrementTicketId id)] := by
          simp [resolveCycle, resolveFoundPath, hc, hb]
        exact ⟨1, 3, by omega, by rw [hops]; rfl, by rw [hops]; rfl⟩
      · have hops : (resolveCycle id (some ft) store now).ops =
            [Op.setState ⟨none, some ("checking " ++ id)⟩,
              Op.createRec ft,
              Op.setState ⟨some id, some "ok"⟩,
              Op.advanceId (incrementTicketId id)] := by
          simp [resolveCycle, resolveFoundPath, hc, hb]
        exact ⟨2, 3, by omega, by rw [hops]; rfl, by rw [hops]; rfl⟩
      · have hops : (resolveCycle id (some ft) store now).ops =
            [Op.setState ⟨none, some ("checking " ++ id)⟩,
              Op.createRec ft,
              Op.setState ⟨some id, some "ok"⟩,
              Op.broadcastOp (persistTicket store ft).2.1,
              Op.advanceId (incrementTicketId id)] := by
          simp [resolveCycle, resolveFoundPath, hc, hb]
        exact ⟨2, 4, by omega, by rw [hops]; rfl, by rw [hops]; rfl⟩
  · intro id store now st
    refine ⟨?_, rfl⟩
    simp [resolveCycle, resolveNotFoundPath, applyOps, updateScraperState]

/-- Witness for `cursor_commit_policy` at a concrete found-path cycle. -/
theorem cursor_commit_policy_witness :
    (applyOps ⟨"cab150", "ok"⟩
        (resolveCycle "cab151" (some sampleTicket) [] 0).ops).lastCheckedId
      = "cab151" :=
  ((cursor_commit_policy.1 "cab151" sampleTicket [] 0 ⟨"cab150", "ok"⟩
    (by decide)).1)

end ParkIt
